import Mathlib

/-!
# ppt2pdf-web — verification of the spec against the code

A shallow embedding of the parts of `src/server.js` and
`src/public/script.js` that the claims speak about. The source tree holds
two concatenated revisions of each file; where both revisions contain a
routine (the `/convert` endpoint, the `/download/:id` endpoint, the
`removeFileAt` helper) the text is identical, and the embedding covers
the union of routes (`POST /preview-pdf` appears in the first revision,
`POST /preview` and `GET /preview/:id` in the second).

The two ephemeral registries (`generatedFiles`, `previewFiles`) and the
set of files on disk form a `ServerState`; the GET routes are functions
from state to response and next state. The POST `/convert` route is
embedded as a trace of `Action`s in the order the handler performs them,
with the outcome of each external `soffice` invocation and the directory
listing supplied by an oracle (`SofficeOutcome`, `ConvertEnv`), since the
external tool is a black box.
-/

namespace Ppt2Pdf

/-! ## String and path helpers

Structural re-implementations over `List Char` of the string operations
the code uses (`split`, `toLowerCase`, `endsWith`, Node `path.basename` /
`path.extname`), so that every definition evaluates by kernel reduction
on concrete inputs. -/

/-- Split a character list at every occurrence of `c`, as JS
`String.prototype.split` with a one-character separator: the result is
never empty and separators are not kept. -/
def splitOnChar (c : Char) : List Char → List Char → List (List Char)
  | [], acc => [acc.reverse]
  | x :: xs, acc =>
    if x == c then acc.reverse :: splitOnChar c xs []
    else splitOnChar c xs (x :: acc)

/-- ASCII lowercasing, character by character — what
`String.prototype.toLowerCase` does on the ASCII filenames involved. -/
def toLowerStr (s : String) : String :=
  String.mk (s.toList.map Char.toLower)

/-- Does `l` end with `suf`? -/
def endsWithChars (l suf : List Char) : Bool :=
  decide (suf.length ≤ l.length) && l.drop (l.length - suf.length) == suf

/-- The index of the last occurrence of `c` in the list, if any. -/
def lastIdxOfChar (c : Char) : List Char → Option Nat
  | [] => none
  | x :: xs =>
    match lastIdxOfChar c xs with
    | some i => some (i + 1)
    | none => if x == c then some 0 else none

/-- The final path segment, as Node `path.basename` on POSIX paths. -/
def basename (p : String) : String :=
  String.mk (((splitOnChar '/' p.toList []).getLast?).getD p.toList)

/-- The extension of the final path segment, from its last dot to the end;
empty when there is no dot or the only dot leads the segment (dotfile), as
Node `path.extname`. -/
def extname (p : String) : String :=
  let b := (basename p).toList
  match lastIdxOfChar '.' b with
  | none => ""
  | some 0 => ""
  | some i => String.mk (b.drop i)

/-- `fn.toLowerCase().endsWith(suffix)` — also the meaning of the
case-insensitive anchored regexes `/\.pdf$/i` and `/\.png$/i` used by the
preview handlers. -/
def lowerEndsWith (fn suffix : String) : Bool :=
  endsWithChars (toLowerStr fn).toList suffix.toList

/-- The multer `fileFilter` of `upload`: accept exactly the files whose
lowercased extension is `.ppt` or `.pptx` (server.js lines 28-33). -/
def fileFilterAccepts (originalname : String) : Bool :=
  let ext := toLowerStr (extname originalname)
  ext == ".ppt" || ext == ".pptx"

/-! ## Server state: the two registries and the disk. -/

/-- One entry of `generatedFiles`: `{ path, downloadName }`. -/
structure ArtifactInfo where
  path : String
  downloadName : String
deriving DecidableEq

/-- The mutable server state the GET routes read and write: the
`generatedFiles` and `previewFiles` objects (as association lists keyed by
id, one binding per key) and the set of files that exist on disk
(`fs.existsSync` / `fs.unlinkSync`). -/
structure ServerState where
  generatedFiles : List (String × ArtifactInfo)
  previewFiles : List (String × String)
  disk : List String
deriving DecidableEq

/-- A response a GET route can produce. -/
inductive GetResponse
  | notFound404 (msg : String)
  | fileDownload (path : String) (downloadName : String)
  | sendFile (path : String)
deriving DecidableEq

/-- `GET /download/:id` (server.js lines 242-251): look the id up in
`generatedFiles`; 404 when absent or the file is gone from disk; otherwise
serve it with `res.download`, whose completion callback unlinks the file
and deletes the registry entry unconditionally. The returned state is the
state after the callback has run. -/
def downloadGetRoute (st : ServerState) (id : String) :
    GetResponse × ServerState :=
  match st.generatedFiles.lookup id with
  | none => (.notFound404 "File not found or expired.", st)
  | some info =>
    if st.disk.contains info.path then
      let name := if info.downloadName = "" then basename info.path
                  else info.downloadName
      (.fileDownload info.path name,
       { st with
           disk := st.disk.filter (fun p => p != info.path),
           generatedFiles :=
             st.generatedFiles.filter (fun kv => kv.1 != id) })
    else (.notFound404 "File not found or expired.", st)

/-- `GET /preview/:id` (server.js lines 509-514): look the id up in
`previewFiles`; 404 when absent or the file is gone from disk; otherwise
`res.sendFile` — the handler deletes nothing. -/
def previewGetRoute (st : ServerState) (id : String) :
    GetResponse × ServerState :=
  match st.previewFiles.lookup id with
  | none => (.notFound404 "Preview not found or expired.", st)
  | some p =>
    if st.disk.contains p then (.sendFile p, st)
    else (.notFound404 "Preview not found or expired.", st)

/-- The `setTimeout` callback scheduled at artifact registration
(server.js line 139/153): unlink the captured destination path and delete
the registry entry, unconditionally. -/
def expireArtifact (st : ServerState) (id destPath : String) : ServerState :=
  { st with
      disk := st.disk.filter (fun p => p != destPath),
      generatedFiles := st.generatedFiles.filter (fun kv => kv.1 != id) }

/-- The `setTimeout` callback scheduled at preview registration
(server.js line 492): unlink the captured destination path and delete the
`previewFiles` entry. -/
def expirePreview (st : ServerState) (id destPath : String) : ServerState :=
  { st with
      disk := st.disk.filter (fun p => p != destPath),
      previewFiles := st.previewFiles.filter (fun kv => kv.1 != id) }

/-- The delay passed to both expiry `setTimeout` calls:
`10 * 60 * 1000` milliseconds. -/
def ttlMs : Nat := 10 * 60 * 1000

/-! ## The POST routes as action traces

The `soffice` subprocess is a black box, so each invocation outcome is
supplied by the oracle `SofficeOutcome`, mirroring how the promise of
`convertWithSoffice` settles; the scratch-directory listing after the
conversions (`fs.readdirSync(workdir)`) is likewise supplied. The handler
body is then a list of `Action`s in exactly the order the code performs
them. -/

/-- How one `soffice` run ends, mirroring `convertWithSoffice`
(server.js lines 70-91): the timeout fires and kills the process
(`reject(new Error('Conversion timeout'))`), the spawn errors
(`reject(err)`), or the process closes with an exit code. -/
inductive SofficeOutcome
  | timeout
  | spawnError (msg : String)
  | closed (code : Int)
deriving DecidableEq

/-- The settled promise of `convertWithSoffice`: timeout and spawn error
reject; `close` resolves with the exit code — whatever the code, the
caller is left to check for produced PDFs. -/
def convertWithSoffice (o : SofficeOutcome) : Except String Int :=
  match o with
  | .timeout => .error "Conversion timeout"
  | .spawnError msg => .error msg
  | .closed code => .ok code

/-- An HTTP response of a POST route. -/
inductive Response
  | json400 (msg : String)
  | json500 (msg : String)
  | okConvert (downloadUrl filename : String)
  | okPdfBytes (path : String)
  | okPreview (previewUrl : String)
  | uploadRejected (msg : String)
deriving DecidableEq

/-- One observable step of a POST handler, in program order. -/
inductive Action
  | mkdirScratch (dir : String)
  | runSoffice (file : String) (outcome : SofficeOutcome)
  | zipCreate (zipPath : String) (entries : List String)
  | register (id destPath downloadName : String)
  | registerPreview (id destPath : String)
  | scheduleExpiry (id destPath : String) (delayMs : Nat)
  | cleanupDir (dir : String)
  | respond (r : Response)
deriving DecidableEq

/-- The sequential conversion loop of `/convert` (server.js lines
109-117): run `convertWithSoffice` on each file in order; at the first
rejected promise stop and report that file and the error message. Returns
the invocations performed and the first failure, if any. -/
def runConversions :
    List (String × SofficeOutcome) → List Action × Option (String × String)
  | [] => ([], none)
  | (f, o) :: rest =>
    match convertWithSoffice o with
    | .error msg => ([.runSoffice f o], some (f, msg))
    | .ok _ =>
      let next := runConversions rest
      (.runSoffice f o :: next.1, next.2)

/-- The oracle for one `/convert` request: the listing of the scratch
directory once the conversions are done, and whether the zip stream closes
successfully or errors. -/
structure ConvertEnv where
  dirListing : List String
  zipOk : Bool
deriving DecidableEq

/-- The body of `POST /convert` (server.js lines 94-176) as its action
trace. `files` pairs each uploaded original name with its oracle outcome;
`workdir` is the fresh scratch directory, `filesDir` the artifact store,
`id` the fresh uuid. Branches, messages and the order of registration,
expiry scheduling, cleanup and response follow the code line by line. -/
def convertHandler (files : List (String × SofficeOutcome))
    (env : ConvertEnv) (workdir filesDir id : String) : List Action :=
  if files.isEmpty then [.respond (.json400 "No files uploaded.")]
  else
    let conv := runConversions files
    Action.mkdirScratch workdir :: conv.1 ++
    match conv.2 with
    | some (f, msg) =>
      [.cleanupDir workdir,
       .respond (.json500 ("Conversion failed for: " ++ f ++ ". " ++ msg))]
    | none =>
      let pdfFiles := env.dirListing.filter fun fn => lowerEndsWith fn ".pdf"
      if pdfFiles.isEmpty then
        [.cleanupDir workdir,
         .respond (.json500 "Conversion failed: no PDF produced.")]
      else if pdfFiles.length == 1 then
        let pdfName := pdfFiles.headD ""
        let destName := id ++ extname (workdir ++ "/" ++ pdfName)
        let destPath := filesDir ++ "/" ++ destName
        [.register id destPath pdfName,
         .scheduleExpiry id destPath ttlMs,
         .cleanupDir workdir,
         .respond (.okConvert ("/download/" ++ id) pdfName)]
      else
        let zipPath := filesDir ++ "/" ++ (id ++ ".zip")
        if env.zipOk then
          [.zipCreate zipPath pdfFiles,
           .register id zipPath "converted-pdfs.zip",
           .scheduleExpiry id zipPath ttlMs,
           .cleanupDir workdir,
           .respond (.okConvert ("/download/" ++ id) "converted-pdfs.zip")]
        else
          [.cleanupDir workdir,
           .respond (.json500 "Failed creating ZIP: stream error")]

/-- `POST /convert` behind the multer middleware: if any incoming file
fails the shared `fileFilter`, multer aborts the request with the filter
error and the handler body never runs. -/
def convertRoute (files : List (String × SofficeOutcome))
    (env : ConvertEnv) (workdir filesDir id : String) : List Action :=
  if files.any (fun f => !fileFilterAccepts f.1) then
    [.respond (.uploadRejected "Only .ppt and .pptx files allowed")]
  else convertHandler files env workdir filesDir id

/-- The body of `POST /preview-pdf` (first revision, lines 179-239):
convert one file to PDF in a scratch directory and return the bytes of
the first produced PDF. A timeout only kills the process, so `close`
still fires and the listing is checked; only a spawn error short-cuts to
the 500 response. -/
def previewPdfHandler (name : String) (o : SofficeOutcome)
    (dirListing : List String) (workdir : String) : List Action :=
  Action.mkdirScratch workdir :: Action.runSoffice name o ::
  match o with
  | .spawnError _ =>
    [.cleanupDir workdir,
     .respond (.json500 "Failed to start LibreOffice (soffice).")]
  | _ =>
    let pdfs := dirListing.filter fun fn => lowerEndsWith fn ".pdf"
    if pdfs.isEmpty then
      [.cleanupDir workdir,
       .respond (.json500 "Preview PDF generation failed: no PDF produced.")]
    else
      [.cleanupDir workdir,
       .respond (.okPdfBytes (workdir ++ "/" ++ pdfs.headD ""))]

/-- `POST /preview-pdf` behind the multer middleware. -/
def previewPdfRoute (file : Option (String × SofficeOutcome))
    (dirListing : List String) (workdir : String) : List Action :=
  match file with
  | none => [.respond (.json400 "No file uploaded.")]
  | some (n, o) =>
    if fileFilterAccepts n then previewPdfHandler n o dirListing workdir
    else [.respond (.uploadRejected "Only .ppt and .pptx files allowed")]

/-- The body of `POST /preview` (second revision, lines 445-506): convert
one file to PNG, sort the produced images, copy the first into the
preview store under the fresh id, register it in `previewFiles` with the
TTL expiry, clean the scratch directory and answer with the preview URL. -/
def previewHandler (name : String) (o : SofficeOutcome)
    (dirListing : List String) (workdir previewDir pid : String) :
    List Action :=
  Action.mkdirScratch workdir :: Action.runSoffice name o ::
  match o with
  | .spawnError _ =>
    [.cleanupDir workdir,
     .respond (.json500 "Failed to start LibreOffice (soffice).")]
  | _ =>
    let images :=
      (dirListing.filter fun fn => lowerEndsWith fn ".png").mergeSort
        (fun a b => a ≤ b)
    if images.isEmpty then
      [.cleanupDir workdir,
       .respond (.json500 "Preview generation failed: no image produced.")]
    else
      let imgName := images.headD ""
      let destPath := previewDir ++ "/" ++ (pid ++ extname imgName)
      [.registerPreview pid destPath,
       .scheduleExpiry pid destPath ttlMs,
       .cleanupDir workdir,
       .respond (.okPreview ("/preview/" ++ pid))]

/-- `POST /preview` behind the multer middleware. -/
def previewRoute (file : Option (String × SofficeOutcome))
    (dirListing : List String) (workdir previewDir pid : String) :
    List Action :=
  match file with
  | none => [.respond (.json400 "No file uploaded.")]
  | some (n, o) =>
    if fileFilterAccepts n then
      previewHandler n o dirListing workdir previewDir pid
    else [.respond (.uploadRejected "Only .ppt and .pptx files allowed")]

/-! ## Reading a trace -/

/-- The responses a trace sends, in order. -/
def respondsOf (tr : List Action) : List Response :=
  tr.filterMap fun a =>
    match a with | .respond r => some r | _ => none

/-- The response a trace sends (the first `respond` action). -/
def responseOf (tr : List Action) : Option Response :=
  (respondsOf tr).head?

/-- The download artifacts a trace registers, in order. -/
def registeredOf (tr : List Action) : List (String × String × String) :=
  tr.filterMap fun a =>
    match a with
    | .register id destPath name => some (id, destPath, name)
    | _ => none

/-- Whether a trace ever invokes the external tool. -/
def invokesSoffice (tr : List Action) : Bool :=
  tr.any fun a =>
    match a with | .runSoffice _ _ => true | _ => false

/-! ## The client file-list manager (`src/public/script.js`)

The pending selection is the `currentFiles` array of `File` objects, of
which the three identity keys matter here. The first revision funnels
both the file picker and drag-and-drop through `addFiles` (lines 31-47),
which de-duplicates on name+size+lastModified and skips files without a
`ppt`/`pptx` extension; the second revision appends in the drop and
change handlers directly (lines 309-322), de-duplicating on name+size
only. -/

/-- The identity keys of a browser `File` object that the list manager
compares. -/
structure JsFile where
  name : String
  size : Nat
  lastModified : Int
deriving DecidableEq

/-- `(f.name || '').split('.').pop().toLowerCase()` — the last
dot-separated segment of the name, lowercased. -/
def extOf (name : String) : String :=
  toLowerStr (String.mk (((splitOnChar '.' name.toList []).getLast?).getD []))

/-- The duplicate test of `addFiles`:
`currentFiles.some(e => e.name === f.name && e.size === f.size && e.lastModified === f.lastModified)`. -/
def dupTriple (cur : List JsFile) (f : JsFile) : Bool :=
  cur.any fun e =>
    e.name == f.name && e.size == f.size && e.lastModified == f.lastModified

/-- The duplicate test of the second revision drop/change handlers:
`currentFiles.some(e => e.name === f.name && e.size === f.size)`. -/
def dupPair (cur : List JsFile) (f : JsFile) : Bool :=
  cur.any fun e => e.name == f.name && e.size == f.size

/-- `addFiles` (script.js lines 31-47): walk the incoming array in order;
skip files whose extension is not `ppt`/`pptx`; push a file only when no
current entry matches it on name, size and lastModified. -/
def addFiles (cur : List JsFile) : List JsFile → List JsFile
  | [] => cur
  | f :: rest =>
    if !(extOf f.name == "ppt" || extOf f.name == "pptx") then
      addFiles cur rest
    else if dupTriple cur f then addFiles cur rest
    else addFiles (cur ++ [f]) rest

/-- The second revision drop and change handlers (script.js lines
309-322 and 327-339): append each incoming file unless a current entry
matches it on name and size. -/
def addFilesDrop (cur : List JsFile) : List JsFile → List JsFile
  | [] => cur
  | f :: rest =>
    if dupPair cur f then addFilesDrop cur rest
    else addFilesDrop (cur ++ [f]) rest

/-- No two entries agree on all of name, size and lastModified. -/
def NoDupTriple (xs : List JsFile) : Prop :=
  xs.Pairwise fun a b =>
    ¬(a.name = b.name ∧ a.size = b.size ∧ a.lastModified = b.lastModified)

/-- No two entries agree on both name and size. -/
def NoDupPair (xs : List JsFile) : Prop :=
  xs.Pairwise fun a b => ¬(a.name = b.name ∧ a.size = b.size)

/-- The client state `removeFileAt` touches: the `currentFiles` array,
the hidden `fileInput.files` list, and the rendered file list (the names
`renderFileList` displays). -/
structure ClientState where
  currentFiles : List JsFile
  inputFiles : List JsFile
  renderedNames : List String
deriving DecidableEq

/-- `removeFileAt` (script.js lines 200-206, identical at 490-496): when
the index is below zero or at least the list length, return — nothing is
touched; otherwise splice the entry out, rebuild `fileInput.files` from
`currentFiles`, and re-render. -/
def removeFileAt (st : ClientState) (index : Int) : ClientState :=
  if index < 0 ∨ (st.currentFiles.length : Int) ≤ index then st
  else
    let cur := st.currentFiles.eraseIdx index.toNat
    { currentFiles := cur
      inputFiles := cur
      renderedNames := cur.map (fun f => f.name) }

/-! ## Registry lemmas -/

/-- After `delete obj[id]` — filtering the key out of the association
list — lookup of that key is `none`. -/
theorem lookup_filter_bne {β : Type} (l : List (String × β)) (id : String) :
    (l.filter fun kv => kv.1 != id).lookup id = none := by
  induction l with
  | nil => rfl
  | cons kv rest ih =>
    by_cases h : kv.1 = id
    · simp [List.filter_cons, h, ih]
    · have h2 : (id == kv.1) = false := by simp [Ne.symm h]
      simp [List.filter_cons, bne, h, List.lookup, h2, ih]
      exact fun a b _ hna hia => hna hia.symm

/-- After `fs.unlinkSync(p)` — filtering the path off the disk —
`contains` is false. -/
theorem contains_filter_bne (l : List String) (x : String) :
    (l.filter fun p => p != x).contains x = false := by
  induction l with
  | nil => rfl
  | cons p rest ih =>
    by_cases h : p = x
    · simp [List.filter_cons, h, ih]
    · simp [List.filter_cons, bne, h, List.contains, List.elem, Ne.symm h, ih]

/-- Serving a registered, on-disk artifact: the route responds with the
file and the callback state has the path unlinked and the entry deleted. -/
theorem downloadGetRoute_found (st : ServerState) (id : String)
    (info : ArtifactInfo)
    (hreg : st.generatedFiles.lookup id = some info)
    (hdisk : st.disk.contains info.path = true) :
    downloadGetRoute st id =
      (.fileDownload info.path
         (if info.downloadName = "" then basename info.path
          else info.downloadName),
       { st with
           disk := st.disk.filter (fun p => p != info.path),
           generatedFiles := st.generatedFiles.filter (fun kv => kv.1 != id) }) := by
  simp only [downloadGetRoute, hreg]
  rw [if_pos]
  simpa using hdisk

/-! ## C1: one-time download -/

/-- C1: serving `GET /download/:id` for a registered artifact whose file
exists deletes the file and the `generatedFiles` entry as soon as the
response completes — independent of the TTL timer — so a repeated
`GET /download/:id` with the same id answers 404. -/
theorem download_one_time (st : ServerState) (id : String) (info : ArtifactInfo)
    (hreg : st.generatedFiles.lookup id = some info)
    (hdisk : st.disk.contains info.path = true) :
    (∃ nm, (downloadGetRoute st id).1 = .fileDownload info.path nm) ∧
    (downloadGetRoute st id).2.generatedFiles.lookup id = none ∧
    (downloadGetRoute st id).2.disk.contains info.path = false ∧
    (downloadGetRoute (downloadGetRoute st id).2 id).1 =
      GetResponse.notFound404 "File not found or expired." := by
  have h1 := downloadGetRoute_found st id info hreg hdisk
  refine ⟨⟨_, by rw [h1]⟩, ?_, ?_, ?_⟩
  · rw [h1]; exact lookup_filter_bne _ _
  · rw [h1]; exact contains_filter_bne _ _
  · rw [h1]; simp [downloadGetRoute, lookup_filter_bne]

/-- C1 witness: a concrete registered artifact is served once and the
second download 404s. -/
theorem download_one_time_witness :
    (∃ nm, (downloadGetRoute ⟨[("d1", ⟨"/t/f1.pdf", "deck.pdf"⟩)], [], ["/t/f1.pdf"]⟩ "d1").1 =
       .fileDownload "/t/f1.pdf" nm) ∧
    (downloadGetRoute ⟨[("d1", ⟨"/t/f1.pdf", "deck.pdf"⟩)], [], ["/t/f1.pdf"]⟩ "d1").2.generatedFiles.lookup "d1" = none ∧
    (downloadGetRoute ⟨[("d1", ⟨"/t/f1.pdf", "deck.pdf"⟩)], [], ["/t/f1.pdf"]⟩ "d1").2.disk.contains "/t/f1.pdf" = false ∧
    (downloadGetRoute (downloadGetRoute ⟨[("d1", ⟨"/t/f1.pdf", "deck.pdf"⟩)], [], ["/t/f1.pdf"]⟩ "d1").2 "d1").1 =
      GetResponse.notFound404 "File not found or expired." :=
  download_one_time _ "d1" ⟨"/t/f1.pdf", "deck.pdf"⟩ (by decide) (by decide)

/-! ## C9: stale registry entries are never served -/

/-- C9: `GET /download/:id` answers 404 not only for unknown ids but also
when `generatedFiles` still holds the id while its file is gone from
disk — a stale entry is never served, and the state is untouched. -/
theorem download_stale_entry_404 (st : ServerState) (id : String)
    (info : ArtifactInfo)
    (hreg : st.generatedFiles.lookup id = some info)
    (hmiss : st.disk.contains info.path = false) :
    downloadGetRoute st id =
      (.notFound404 "File not found or expired.", st) := by
  simp only [downloadGetRoute, hreg]
  rw [if_neg]
  simpa using hmiss

/-- C9 witness: a registered id whose file was already unlinked 404s. -/
theorem download_stale_entry_404_witness :
    downloadGetRoute ⟨[("d2", ⟨"/t/gone.pdf", "deck.pdf"⟩)], [], []⟩ "d2" =
      (.notFound404 "File not found or expired.",
       ⟨[("d2", ⟨"/t/gone.pdf", "deck.pdf"⟩)], [], []⟩) :=
  download_stale_entry_404 _ "d2" ⟨"/t/gone.pdf", "deck.pdf"⟩
    (by decide) (by decide)

/-! ## C7: deletion on first download or on TTL expiry -/

/-- C7: a registered artifact disappears on whichever happens first: the
first download deletes the entry and its file, and the 10-minute
(`ttlMs = 600000` milliseconds) expiry callback deletes the entry and
its file, after which `GET /download/:id` answers 404; registration in
the `/convert` handler schedules exactly that callback with delay
`ttlMs`. -/
theorem artifact_ttl_eviction (st : ServerState) (id : String)
    (info : ArtifactInfo)
    (hreg : st.generatedFiles.lookup id = some info)
    (hdisk : st.disk.contains info.path = true) :
    ttlMs = 600000 ∧
    ((downloadGetRoute st id).2.generatedFiles.lookup id = none ∧
     (downloadGetRoute st id).2.disk.contains info.path = false) ∧
    ((expireArtifact st id info.path).generatedFiles.lookup id = none ∧
     (expireArtifact st id info.path).disk.contains info.path = false) ∧
    (downloadGetRoute (expireArtifact st id info.path) id).1 =
      GetResponse.notFound404 "File not found or expired." ∧
    (∀ files env w fd p, files ≠ [] →
       (runConversions files).2 = none →
       env.dirListing.filter (fun fn => lowerEndsWith fn ".pdf") = [p] →
       Action.scheduleExpiry id (fd ++ "/" ++ (id ++ extname (w ++ "/" ++ p)))
           ttlMs
         ∈ convertHandler files env w fd id) := by
  have h1 := downloadGetRoute_found st id info hreg hdisk
  refine ⟨rfl, ⟨?_, ?_⟩, ⟨lookup_filter_bne _ _, contains_filter_bne _ _⟩,
    by simp [downloadGetRoute, expireArtifact, lookup_filter_bne], ?_⟩
  · rw [h1]; exact lookup_filter_bne _ _
  · rw [h1]; exact contains_filter_bne _ _
  · intro files env w fd p hne hok hpdfs
    cases files with
    | nil => exact absurd rfl hne
    | cons f fs =>
      simp [convertHandler, hok, hpdfs]

/-- C7 witness: a concrete artifact is evicted by download and by expiry,
and a concrete single-PDF conversion schedules the 10-minute expiry. -/
theorem artifact_ttl_eviction_witness :
    ttlMs = 600000 ∧
    ((downloadGetRoute ⟨[("d3", ⟨"/t/f3.pdf", "x.pdf"⟩)], [], ["/t/f3.pdf"]⟩ "d3").2.generatedFiles.lookup "d3" = none ∧
     (downloadGetRoute ⟨[("d3", ⟨"/t/f3.pdf", "x.pdf"⟩)], [], ["/t/f3.pdf"]⟩ "d3").2.disk.contains "/t/f3.pdf" = false) ∧
    ((expireArtifact ⟨[("d3", ⟨"/t/f3.pdf", "x.pdf"⟩)], [], ["/t/f3.pdf"]⟩ "d3" "/t/f3.pdf").generatedFiles.lookup "d3" = none ∧
     (expireArtifact ⟨[("d3", ⟨"/t/f3.pdf", "x.pdf"⟩)], [], ["/t/f3.pdf"]⟩ "d3" "/t/f3.pdf").disk.contains "/t/f3.pdf" = false) ∧
    (downloadGetRoute (expireArtifact ⟨[("d3", ⟨"/t/f3.pdf", "x.pdf"⟩)], [], ["/t/f3.pdf"]⟩ "d3" "/t/f3.pdf") "d3").1 =
      GetResponse.notFound404 "File not found or expired." ∧
    Action.scheduleExpiry "d3" ("/t/files" ++ "/" ++ ("d3" ++ extname ("/t/w" ++ "/" ++ "a.pdf"))) ttlMs
      ∈ convertHandler [("a.pptx", .closed 0)] ⟨["a.pptx", "a.pdf"], true⟩ "/t/w" "/t/files" "d3" :=
  have h := artifact_ttl_eviction ⟨[("d3", ⟨"/t/f3.pdf", "x.pdf"⟩)], [], ["/t/f3.pdf"]⟩
    "d3" ⟨"/t/f3.pdf", "x.pdf"⟩ (by decide) (by decide)
  ⟨h.1, h.2.1, h.2.2.1, h.2.2.2.1,
   h.2.2.2.2 [("a.pptx", .closed 0)] ⟨["a.pptx", "a.pdf"], true⟩ "/t/w" "/t/files"
     "a.pdf" (by decide) (by decide) (by decide)⟩

/-! ## C2: `GET /preview/:id` is not one-time -/

/-- C2 counterexample: for a registered preview whose file exists, a
first successful `GET /preview/:id` leaves the state unchanged, and the
second request with the same id succeeds again instead of answering 404 —
the handler deletes nothing, so preview retrieval is not one-time. -/
theorem preview_not_one_time :
    (previewGetRoute ⟨[], [("p1", "/t/x.png")], ["/t/x.png"]⟩ "p1").1 =
      .sendFile "/t/x.png" ∧
    (previewGetRoute ⟨[], [("p1", "/t/x.png")], ["/t/x.png"]⟩ "p1").2 =
      ⟨[], [("p1", "/t/x.png")], ["/t/x.png"]⟩ ∧
    (previewGetRoute
        (previewGetRoute ⟨[], [("p1", "/t/x.png")], ["/t/x.png"]⟩ "p1").2
        "p1").1 = .sendFile "/t/x.png" ∧
    (previewGetRoute
        (previewGetRoute ⟨[], [("p1", "/t/x.png")], ["/t/x.png"]⟩ "p1").2
        "p1").1 ≠ GetResponse.notFound404 "Preview not found or expired." := by
  decide

/-- C2 amended: `GET /preview/:id` answers 404 exactly for ids that are
unknown to `previewFiles` or whose file is gone from disk (in particular
after the TTL expiry callback ran); a successful retrieval serves the
file and leaves the registry and the disk untouched, so the same id can
be retrieved repeatedly until it expires. -/
theorem preview_get_behavior (st : ServerState) (id : String) :
    (∀ p, st.previewFiles.lookup id = some p → st.disk.contains p = true →
       previewGetRoute st id = (.sendFile p, st)) ∧
    (st.previewFiles.lookup id = none →
       previewGetRoute st id =
         (.notFound404 "Preview not found or expired.", st)) ∧
    (∀ p, st.previewFiles.lookup id = some p → st.disk.contains p = false →
       previewGetRoute st id =
         (.notFound404 "Preview not found or expired.", st)) ∧
    (∀ p, (previewGetRoute (expirePreview st id p) id).1 =
       GetResponse.notFound404 "Preview not found or expired.") := by
  refine ⟨?_, ?_, ?_, ?_⟩
  · intro p hlk hdisk
    simp only [previewGetRoute, hlk]
    rw [if_pos]
    simpa using hdisk
  · intro hlk
    simp [previewGetRoute, hlk]
  · intro p hlk hdisk
    simp only [previewGetRoute, hlk]
    rw [if_neg]
    simpa using hdisk
  · intro p
    simp [previewGetRoute, expirePreview, lookup_filter_bne]

/-- C2 amended witness: a concrete registered preview is served with the
state untouched, an unknown id 404s, and the id 404s after expiry. -/
theorem preview_get_behavior_witness :
    previewGetRoute ⟨[], [("p2", "/t/y.png")], ["/t/y.png"]⟩ "p2" =
      (.sendFile "/t/y.png", ⟨[], [("p2", "/t/y.png")], ["/t/y.png"]⟩) ∧
    previewGetRoute ⟨[], [("p2", "/t/y.png")], ["/t/y.png"]⟩ "zz" =
      (.notFound404 "Preview not found or expired.",
       ⟨[], [("p2", "/t/y.png")], ["/t/y.png"]⟩) ∧
    (previewGetRoute
        (expirePreview ⟨[], [("p2", "/t/y.png")], ["/t/y.png"]⟩ "p2" "/t/y.png")
        "p2").1 = GetResponse.notFound404 "Preview not found or expired." :=
  ⟨(preview_get_behavior ⟨[], [("p2", "/t/y.png")], ["/t/y.png"]⟩ "p2").1
     "/t/y.png" (by decide) (by decide),
   (preview_get_behavior ⟨[], [("p2", "/t/y.png")], ["/t/y.png"]⟩ "zz").2.1
     (by decide),
   (preview_get_behavior ⟨[], [("p2", "/t/y.png")], ["/t/y.png"]⟩ "p2").2.2.2
     "/t/y.png"⟩

/-! ## Trace lemmas for the `/convert` handler -/

/-- The conversion loop emits only `runSoffice` actions: no responses. -/
theorem respondsOf_runConversions (files : List (String × SofficeOutcome)) :
    respondsOf (runConversions files).1 = [] := by
  induction files with
  | nil => rfl
  | cons f rest ih =>
    obtain ⟨n, o⟩ := f
    cases o with
    | timeout => simp [runConversions, convertWithSoffice, respondsOf]
    | spawnError m => simp [runConversions, convertWithSoffice, respondsOf]
    | closed c => simpa [runConversions, convertWithSoffice, respondsOf] using ih

/-- The conversion loop emits only `runSoffice` actions: no registrations. -/
theorem registeredOf_runConversions (files : List (String × SofficeOutcome)) :
    registeredOf (runConversions files).1 = [] := by
  induction files with
  | nil => rfl
  | cons f rest ih =>
    obtain ⟨n, o⟩ := f
    cases o with
    | timeout => simp [runConversions, convertWithSoffice, registeredOf]
    | spawnError m => simp [runConversions, convertWithSoffice, registeredOf]
    | closed c => simpa [runConversions, convertWithSoffice, registeredOf] using ih

/-- Responses distribute over trace concatenation. -/
theorem respondsOf_append (a b : List Action) :
    respondsOf (a ++ b) = respondsOf a ++ respondsOf b := by
  simp [respondsOf]

/-- Registrations distribute over trace concatenation. -/
theorem registeredOf_append (a b : List Action) :
    registeredOf (a ++ b) = registeredOf a ++ registeredOf b := by
  simp [registeredOf]

/-- The response of a `/convert` trace is decided by its tail after the
scratch mkdir and the conversion loop. -/
theorem responseOf_shape (w : String) (l tail : List Action)
    (hl : respondsOf l = []) :
    responseOf (Action.mkdirScratch w :: l ++ tail) = responseOf tail := by
  have h2 : respondsOf (Action.mkdirScratch w :: l) = [] := by
    simp only [respondsOf, List.filterMap_cons] at hl ⊢
    exact hl
  rw [responseOf,
    show Action.mkdirScratch w :: l ++ tail =
      (Action.mkdirScratch w :: l) ++ tail from rfl,
    respondsOf_append, h2, List.nil_append, responseOf]

/-- The registrations of a `/convert` trace are those of its tail. -/
theorem registeredOf_shape (w : String) (l tail : List Action)
    (hl : registeredOf l = []) :
    registeredOf (Action.mkdirScratch w :: l ++ tail) = registeredOf tail := by
  have h2 : registeredOf (Action.mkdirScratch w :: l) = [] := by
    simp only [registeredOf, List.filterMap_cons] at hl ⊢
    exact hl
  rw [show Action.mkdirScratch w :: l ++ tail =
      (Action.mkdirScratch w :: l) ++ tail from rfl,
    registeredOf_append, h2, List.nil_append]

/-- Shape of the trace when some invocation promise rejects: the loop
stops at the offending file, the scratch directory is cleaned and a 500
naming the file is sent. -/
theorem convertHandler_fail (files : List (String × SofficeOutcome))
    (env : ConvertEnv) (w fd id f msg : String) (hne : files ≠ [])
    (hfail : (runConversions files).2 = some (f, msg)) :
    convertHandler files env w fd id =
      Action.mkdirScratch w :: (runConversions files).1 ++
        [.cleanupDir w,
         .respond (.json500 ("Conversion failed for: " ++ f ++ ". " ++ msg))] := by
  cases files with
  | nil => exact absurd rfl hne
  | cons a fs => simp [convertHandler, hfail]

/-- Shape of the trace when every promise resolves but no PDF is found. -/
theorem convertHandler_noPdf (files : List (String × SofficeOutcome))
    (env : ConvertEnv) (w fd id : String) (hne : files ≠ [])
    (hok : (runConversions files).2 = none)
    (hpdfs : env.dirListing.filter (fun fn => lowerEndsWith fn ".pdf") = []) :
    convertHandler files env w fd id =
      Action.mkdirScratch w :: (runConversions files).1 ++
        [.cleanupDir w,
         .respond (.json500 "Conversion failed: no PDF produced.")] := by
  cases files with
  | nil => exact absurd rfl hne
  | cons a fs => simp [convertHandler, hok, hpdfs]

/-- Shape of the trace when exactly one PDF is produced: it is copied
under the id, registered under its own filename, the expiry is scheduled,
the scratch directory cleaned and the download URL returned. -/
theorem convertHandler_single (files : List (String × SofficeOutcome))
    (env : ConvertEnv) (w fd id p : String) (hne : files ≠ [])
    (hok : (runConversions files).2 = none)
    (hpdfs : env.dirListing.filter (fun fn => lowerEndsWith fn ".pdf") = [p]) :
    convertHandler files env w fd id =
      Action.mkdirScratch w :: (runConversions files).1 ++
        [.register id (fd ++ "/" ++ (id ++ extname (w ++ "/" ++ p))) p,
         .scheduleExpiry id (fd ++ "/" ++ (id ++ extname (w ++ "/" ++ p))) ttlMs,
         .cleanupDir w,
         .respond (.okConvert ("/download/" ++ id) p)] := by
  cases files with
  | nil => exact absurd rfl hne
  | cons a fs => simp [convertHandler, hok, hpdfs]

/-- Shape of the trace when several PDFs are produced and the zip stream
closes: the zip holds one entry per produced PDF and is registered as
`converted-pdfs.zip`. -/
theorem convertHandler_multi (files : List (String × SofficeOutcome))
    (env : ConvertEnv) (w fd id p1 p2 : String) (ps : List String)
    (hne : files ≠ [])
    (hok : (runConversions files).2 = none)
    (hpdfs : env.dirListing.filter (fun fn => lowerEndsWith fn ".pdf") =
      p1 :: p2 :: ps)
    (hzip : env.zipOk = true) :
    convertHandler files env w fd id =
      Action.mkdirScratch w :: (runConversions files).1 ++
        [.zipCreate (fd ++ "/" ++ (id ++ ".zip")) (p1 :: p2 :: ps),
         .register id (fd ++ "/" ++ (id ++ ".zip")) "converted-pdfs.zip",
         .scheduleExpiry id (fd ++ "/" ++ (id ++ ".zip")) ttlMs,
         .cleanupDir w,
         .respond (.okConvert ("/download/" ++ id) "converted-pdfs.zip")] := by
  cases files with
  | nil => exact absurd rfl hne
  | cons a fs =>
    have h1 : ((p1 :: p2 :: ps).length == 1) = false := by simp
    simp [convertHandler, hok, hpdfs, h1, hzip]

/-- Shape of the trace when several PDFs are produced and the zip stream
errors: the scratch directory is cleaned and a 500 sent; nothing is
registered. -/
theorem convertHandler_multiErr (files : List (String × SofficeOutcome))
    (env : ConvertEnv) (w fd id p1 p2 : String) (ps : List String)
    (hne : files ≠ [])
    (hok : (runConversions files).2 = none)
    (hpdfs : env.dirListing.filter (fun fn => lowerEndsWith fn ".pdf") =
      p1 :: p2 :: ps)
    (hzip : env.zipOk = false) :
    convertHandler files env w fd id =
      Action.mkdirScratch w :: (runConversions files).1 ++
        [.cleanupDir w,
         .respond (.json500 "Failed creating ZIP: stream error")] := by
  cases files with
  | nil => exact absurd rfl hne
  | cons a fs =>
    have h1 : ((p1 :: p2 :: ps).length == 1) = false := by simp
    simp [convertHandler, hok, hpdfs, h1, hzip]

/-! ## C3: what counts as a failed invocation -/

/-- C3 counterexample: an invocation that exits with a nonzero code is
not treated as a failure — with two files where the second exits 1 while
one PDF was produced, the endpoint answers success and registers an
artifact, instead of the claimed user-facing error with no artifact. -/
theorem convert_nonzero_exit_not_error :
    convertWithSoffice (.closed 1) = .ok 1 ∧
    responseOf (convertHandler [("a.pptx", .closed 0), ("b.pptx", .closed 1)]
        ⟨["a.pptx", "b.pptx", "a.pdf"], true⟩ "/t/w" "/t/f" "ID") =
      some (.okConvert "/download/ID" "a.pdf") ∧
    registeredOf (convertHandler [("a.pptx", .closed 0), ("b.pptx", .closed 1)]
        ⟨["a.pptx", "b.pptx", "a.pdf"], true⟩ "/t/w" "/t/f" "ID") =
      [("ID", "/t/f/ID.pdf", "a.pdf")] :=
  ⟨rfl, by decide, by decide⟩

/-- C3 amended: the endpoint reports a user-facing 500 and registers no
artifact when an invocation promise rejects — that is, on timeout or on
spawn failure — and also when every promise resolves but no PDF is found
in the scratch directory; a nonzero exit code alone is not an error. The
scratch directory is cleaned in the rejection path. -/
theorem convert_rejected_invocation (files : List (String × SofficeOutcome))
    (env : ConvertEnv) (w fd id : String) (hne : files ≠ []) :
    (∀ f msg, (runConversions files).2 = some (f, msg) →
       responseOf (convertHandler files env w fd id) =
         some (.json500 ("Conversion failed for: " ++ f ++ ". " ++ msg)) ∧
       registeredOf (convertHandler files env w fd id) = [] ∧
       Action.cleanupDir w ∈ convertHandler files env w fd id) ∧
    ((runConversions files).2 = none →
     env.dirListing.filter (fun fn => lowerEndsWith fn ".pdf") = [] →
       responseOf (convertHandler files env w fd id) =
         some (.json500 "Conversion failed: no PDF produced.") ∧
       registeredOf (convertHandler files env w fd id) = []) := by
  constructor
  · intro f msg hfail
    rw [convertHandler_fail files env w fd id f msg hne hfail]
    refine ⟨?_, ?_, ?_⟩
    · rw [responseOf_shape _ _ _ (respondsOf_runConversions files)]
      simp [responseOf, respondsOf]
    · rw [registeredOf_shape _ _ _ (registeredOf_runConversions files)]
      simp [registeredOf]
    · simp
  · intro hok hpdfs
    rw [convertHandler_noPdf files env w fd id hne hok hpdfs]
    constructor
    · rw [responseOf_shape _ _ _ (respondsOf_runConversions files)]
      simp [responseOf, respondsOf]
    · rw [registeredOf_shape _ _ _ (registeredOf_runConversions files)]
      simp [registeredOf]

/-- C3 amended witness: a concrete timeout yields the 500 naming the file
with nothing registered and the scratch cleaned; a concrete clean run
that produces no PDF yields the no-PDF 500 with nothing registered. -/
theorem convert_rejected_invocation_witness :
    (responseOf (convertHandler [("a.pptx", SofficeOutcome.timeout)]
         ⟨["a.pptx"], true⟩ "/t/w" "/t/f" "ID") =
       some (.json500 ("Conversion failed for: " ++ "a.pptx" ++ ". " ++
         "Conversion timeout")) ∧
     registeredOf (convertHandler [("a.pptx", SofficeOutcome.timeout)]
         ⟨["a.pptx"], true⟩ "/t/w" "/t/f" "ID") = [] ∧
     Action.cleanupDir "/t/w" ∈ convertHandler [("a.pptx", SofficeOutcome.timeout)]
         ⟨["a.pptx"], true⟩ "/t/w" "/t/f" "ID") ∧
    (responseOf (convertHandler [("b.pptx", SofficeOutcome.closed 0)]
         ⟨["b.pptx"], true⟩ "/t/w" "/t/f" "ID") =
       some (.json500 "Conversion failed: no PDF produced.") ∧
     registeredOf (convertHandler [("b.pptx", SofficeOutcome.closed 0)]
         ⟨["b.pptx"], true⟩ "/t/w" "/t/f" "ID") = []) :=
  ⟨(convert_rejected_invocation [("a.pptx", .timeout)] ⟨["a.pptx"], true⟩
      "/t/w" "/t/f" "ID" (by decide)).1 "a.pptx" "Conversion timeout" (by decide),
   (convert_rejected_invocation [("b.pptx", .closed 0)] ⟨["b.pptx"], true⟩
      "/t/w" "/t/f" "ID" (by decide)).2 (by decide) (by decide)⟩

/-! ## C5: artifact registration on success -/

/-- C5: on a successful `/convert` request, exactly one PDF in the
scratch directory is registered directly under its own filename as the
single artifact of the request, and two or more PDFs are archived into
one zip holding exactly one entry per produced PDF, registered as the
single artifact of the request. -/
theorem convert_success_registration (files : List (String × SofficeOutcome))
    (env : ConvertEnv) (w fd id : String) (hne : files ≠ [])
    (hok : (runConversions files).2 = none) :
    (∀ p, env.dirListing.filter (fun fn => lowerEndsWith fn ".pdf") = [p] →
       registeredOf (convertHandler files env w fd id) =
         [(id, fd ++ "/" ++ (id ++ extname (w ++ "/" ++ p)), p)] ∧
       responseOf (convertHandler files env w fd id) =
         some (.okConvert ("/download/" ++ id) p)) ∧
    (∀ p1 p2 ps,
       env.dirListing.filter (fun fn => lowerEndsWith fn ".pdf") =
         p1 :: p2 :: ps →
       env.zipOk = true →
       registeredOf (convertHandler files env w fd id) =
         [(id, fd ++ "/" ++ (id ++ ".zip"), "converted-pdfs.zip")] ∧
       Action.zipCreate (fd ++ "/" ++ (id ++ ".zip")) (p1 :: p2 :: ps)
         ∈ convertHandler files env w fd id ∧
       responseOf (convertHandler files env w fd id) =
         some (.okConvert ("/download/" ++ id) "converted-pdfs.zip")) := by
  constructor
  · intro p hpdfs
    rw [convertHandler_single files env w fd id p hne hok hpdfs]
    constructor
    · rw [registeredOf_shape _ _ _ (registeredOf_runConversions files)]
      simp [registeredOf]
    · rw [responseOf_shape _ _ _ (respondsOf_runConversions files)]
      simp [responseOf, respondsOf]
  · intro p1 p2 ps hpdfs hzip
    rw [convertHandler_multi files env w fd id p1 p2 ps hne hok hpdfs hzip]
    refine ⟨?_, by simp, ?_⟩
    · rw [registeredOf_shape _ _ _ (registeredOf_runConversions files)]
      simp [registeredOf]
    · rw [responseOf_shape _ _ _ (respondsOf_runConversions files)]
      simp [responseOf, respondsOf]

/-- C5 witness: a concrete one-file conversion registers the single PDF
under its own filename, and a concrete two-PDF conversion registers one
zip with both entries. -/
theorem convert_success_registration_witness :
    (registeredOf (convertHandler [("a.pptx", SofficeOutcome.closed 0)]
         ⟨["a.pptx", "a.pdf"], true⟩ "/t/w" "/t/f" "ID") =
       [("ID", "/t/f" ++ "/" ++ ("ID" ++ extname ("/t/w" ++ "/" ++ "a.pdf")),
         "a.pdf")] ∧
     responseOf (convertHandler [("a.pptx", SofficeOutcome.closed 0)]
         ⟨["a.pptx", "a.pdf"], true⟩ "/t/w" "/t/f" "ID") =
       some (.okConvert ("/download/" ++ "ID") "a.pdf")) ∧
    (registeredOf (convertHandler [("a.pptx", SofficeOutcome.closed 0),
           ("b.pptx", SofficeOutcome.closed 0)]
         ⟨["a.pptx", "b.pptx", "a.pdf", "b.pdf"], true⟩ "/t/w" "/t/f" "ID") =
       [("ID", "/t/f" ++ "/" ++ ("ID" ++ ".zip"), "converted-pdfs.zip")] ∧
     Action.zipCreate ("/t/f" ++ "/" ++ ("ID" ++ ".zip")) ["a.pdf", "b.pdf"]
       ∈ convertHandler [("a.pptx", SofficeOutcome.closed 0),
           ("b.pptx", SofficeOutcome.closed 0)]
         ⟨["a.pptx", "b.pptx", "a.pdf", "b.pdf"], true⟩ "/t/w" "/t/f" "ID" ∧
     responseOf (convertHandler [("a.pptx", SofficeOutcome.closed 0),
           ("b.pptx", SofficeOutcome.closed 0)]
         ⟨["a.pptx", "b.pptx", "a.pdf", "b.pdf"], true⟩ "/t/w" "/t/f" "ID") =
       some (.okConvert ("/download/" ++ "ID") "converted-pdfs.zip")) :=
  ⟨(convert_success_registration [("a.pptx", .closed 0)]
      ⟨["a.pptx", "a.pdf"], true⟩ "/t/w" "/t/f" "ID" (by decide) (by decide)).1
      "a.pdf" (by decide),
   (convert_success_registration
      [("a.pptx", .closed 0), ("b.pptx", .closed 0)]
      ⟨["a.pptx", "b.pptx", "a.pdf", "b.pdf"], true⟩ "/t/w" "/t/f" "ID"
      (by decide) (by decide)).2 "a.pdf" "b.pdf" [] (by decide) (by decide)⟩

/-! ## C6: scratch-directory cleanup on every exit path -/

/-- C6: every `/convert` trace with at least one file ends by cleaning
the scratch directory and only then sending the response — in particular
a timed-out invocation yields the 500 naming the file, with the scratch
directory cleaned before the response. -/
theorem convert_scratch_cleanup (files : List (String × SofficeOutcome))
    (env : ConvertEnv) (w fd id : String) (hne : files ≠ []) :
    (∃ pre r, convertHandler files env w fd id =
       pre ++ [Action.cleanupDir w, Action.respond r]) ∧
    (∀ f, (runConversions files).2 = some (f, "Conversion timeout") →
       responseOf (convertHandler files env w fd id) =
         some (.json500 ("Conversion failed for: " ++ f ++ ". " ++
           "Conversion timeout"))) := by
  constructor
  · rcases hfail : (runConversions files).2 with - | ⟨f, msg⟩
    · rcases hpdfs : env.dirListing.filter (fun fn => lowerEndsWith fn ".pdf")
        with - | ⟨p, ps⟩
      · refine ⟨Action.mkdirScratch w :: (runConversions files).1,
          .json500 "Conversion failed: no PDF produced.", ?_⟩
        rw [convertHandler_noPdf files env w fd id hne hfail hpdfs]
      · cases ps with
        | nil =>
          refine ⟨Action.mkdirScratch w :: (runConversions files).1 ++
            [.register id (fd ++ "/" ++ (id ++ extname (w ++ "/" ++ p))) p,
             .scheduleExpiry id
               (fd ++ "/" ++ (id ++ extname (w ++ "/" ++ p))) ttlMs],
            .okConvert ("/download/" ++ id) p, ?_⟩
          rw [convertHandler_single files env w fd id p hne hfail hpdfs]
          simp
        | cons p2 ps2 =>
          cases hzip : env.zipOk with
          | true =>
            refine ⟨Action.mkdirScratch w :: (runConversions files).1 ++
              [.zipCreate (fd ++ "/" ++ (id ++ ".zip")) (p :: p2 :: ps2),
               .register id (fd ++ "/" ++ (id ++ ".zip")) "converted-pdfs.zip",
               .scheduleExpiry id (fd ++ "/" ++ (id ++ ".zip")) ttlMs],
              .okConvert ("/download/" ++ id) "converted-pdfs.zip", ?_⟩
            rw [convertHandler_multi files env w fd id p p2 ps2 hne hfail
              hpdfs hzip]
            simp
          | false =>
            refine ⟨Action.mkdirScratch w :: (runConversions files).1,
              .json500 "Failed creating ZIP: stream error", ?_⟩
            rw [convertHandler_multiErr files env w fd id p p2 ps2 hne hfail
              hpdfs hzip]
    · refine ⟨Action.mkdirScratch w :: (runConversions files).1,
        .json500 ("Conversion failed for: " ++ f ++ ". " ++ msg), ?_⟩
      rw [convertHandler_fail files env w fd id f msg hne hfail]
  · intro f hfail
    rw [convertHandler_fail files env w fd id f "Conversion timeout" hne hfail,
      responseOf_shape _ _ _ (respondsOf_runConversions files)]
    simp [responseOf, respondsOf]

/-- C6 witness: a concrete timed-out request 500s, and its trace ends
with the cleanup of the scratch directory followed by the response. -/
theorem convert_scratch_cleanup_witness :
    (∃ pre r, convertHandler [("a.pptx", SofficeOutcome.timeout)]
        ⟨["a.pptx"], true⟩ "/t/w" "/t/f" "ID" =
       pre ++ [Action.cleanupDir "/t/w", Action.respond r]) ∧
    responseOf (convertHandler [("a.pptx", SofficeOutcome.timeout)]
        ⟨["a.pptx"], true⟩ "/t/w" "/t/f" "ID") =
      some (.json500 ("Conversion failed for: " ++ "a.pptx" ++
        ". Conversion timeout")) :=
  have h := convert_scratch_cleanup [("a.pptx", .timeout)] ⟨["a.pptx"], true⟩
    "/t/w" "/t/f" "ID" (by decide)
  ⟨h.1, h.2 "a.pptx" (by decide)⟩

/-! ## C4: the extension filter gates every upload route -/

/-- A name whose lowercased extension is neither `.ppt` nor `.pptx` fails
the shared multer filter. -/
theorem fileFilterAccepts_eq_false (n : String)
    (h1 : toLowerStr (extname n) ≠ ".ppt")
    (h2 : toLowerStr (extname n) ≠ ".pptx") :
    fileFilterAccepts n = false := by
  simp only [fileFilterAccepts, Bool.or_eq_false_iff]
  exact ⟨by simpa using h1, by simpa using h2⟩

/-- C4: when an uploaded name's lowercased extension is neither `.ppt`
nor `.pptx`, each of `POST /convert`, `POST /preview-pdf` and
`POST /preview` aborts with the filter error and never invokes the
external tool. -/
theorem upload_filter_blocks_tool
    (files : List (String × SofficeOutcome)) (env : ConvertEnv)
    (w fd id n : String) (o : SofficeOutcome) (listing : List String)
    (wp wpr pid : String)
    (hconv : ∃ f ∈ files, toLowerStr (extname f.1) ≠ ".ppt" ∧
       toLowerStr (extname f.1) ≠ ".pptx")
    (hn : toLowerStr (extname n) ≠ ".ppt" ∧ toLowerStr (extname n) ≠ ".pptx") :
    (invokesSoffice (convertRoute files env w fd id) = false ∧
     responseOf (convertRoute files env w fd id) =
       some (.uploadRejected "Only .ppt and .pptx files allowed")) ∧
    (invokesSoffice (previewPdfRoute (some (n, o)) listing wp) = false ∧
     responseOf (previewPdfRoute (some (n, o)) listing wp) =
       some (.uploadRejected "Only .ppt and .pptx files allowed")) ∧
    (invokesSoffice (previewRoute (some (n, o)) listing wp wpr pid) = false ∧
     responseOf (previewRoute (some (n, o)) listing wp wpr pid) =
       some (.uploadRejected "Only .ppt and .pptx files allowed")) := by
  obtain ⟨f, hmem, hf1, hf2⟩ := hconv
  have hany : files.any (fun f => !fileFilterAccepts f.1) = true := by
    refine List.any_eq_true.mpr ⟨f, hmem, ?_⟩
    simp [fileFilterAccepts_eq_false f.1 hf1 hf2]
  have hfn : fileFilterAccepts n = false := fileFilterAccepts_eq_false n hn.1 hn.2
  refine ⟨?_, ?_, ?_⟩
  · rw [convertRoute, if_pos hany]
    exact ⟨rfl, rfl⟩
  · rw [previewPdfRoute, hfn]
    exact ⟨rfl, rfl⟩
  · rw [previewRoute, hfn]
    exact ⟨rfl, rfl⟩

/-- C4 witness: a concrete `.txt` upload is rejected by all three routes
without any tool invocation. -/
theorem upload_filter_blocks_tool_witness :
    (invokesSoffice (convertRoute [("notes.txt", SofficeOutcome.closed 0)]
        ⟨["notes.txt"], true⟩ "/t/w" "/t/f" "ID") = false ∧
     responseOf (convertRoute [("notes.txt", SofficeOutcome.closed 0)]
        ⟨["notes.txt"], true⟩ "/t/w" "/t/f" "ID") =
       some (.uploadRejected "Only .ppt and .pptx files allowed")) ∧
    (invokesSoffice (previewPdfRoute (some ("notes.txt", SofficeOutcome.closed 0))
        ["notes.txt"] "/t/w2") = false ∧
     responseOf (previewPdfRoute (some ("notes.txt", SofficeOutcome.closed 0))
        ["notes.txt"] "/t/w2") =
       some (.uploadRejected "Only .ppt and .pptx files allowed")) ∧
    (invokesSoffice (previewRoute (some ("notes.txt", SofficeOutcome.closed 0))
        ["notes.txt"] "/t/w3" "/t/pv" "P") = false ∧
     responseOf (previewRoute (some ("notes.txt", SofficeOutcome.closed 0))
        ["notes.txt"] "/t/w3" "/t/pv" "P") =
       some (.uploadRejected "Only .ppt and .pptx files allowed")) :=
  upload_filter_blocks_tool [("notes.txt", .closed 0)] ⟨["notes.txt"], true⟩
    "/t/w" "/t/f" "ID" "notes.txt" (.closed 0) ["notes.txt"] "/t/w2" "/t/pv" "P"
    ⟨("notes.txt", .closed 0), by decide, by decide, by decide⟩
    ⟨by decide, by decide⟩

/-! ## C8: the client list never holds two identical entries -/

/-- A triple match with some current entry implies a name+size match. -/
theorem dupTriple_imp_dupPair (cur : List JsFile) (f : JsFile)
    (h : dupTriple cur f = true) : dupPair cur f = true := by
  obtain ⟨e, he, hc⟩ := List.any_eq_true.mp h
  refine List.any_eq_true.mpr ⟨e, he, ?_⟩
  simp only [Bool.and_eq_true] at hc
  simp [hc.1.1, hc.1.2]

/-- Pushing a file that matches no current entry on all three keys keeps
the no-identical-triple invariant. -/
theorem noDupTriple_push (cur : List JsFile) (f : JsFile)
    (h : NoDupTriple cur) (hdup : dupTriple cur f = false) :
    NoDupTriple (cur ++ [f]) := by
  rw [NoDupTriple, List.pairwise_append]
  refine ⟨h, List.pairwise_singleton _ _, ?_⟩
  have hx : ∀ x ∈ cur, x.name = f.name → x.size = f.size →
      ¬x.lastModified = f.lastModified := by
    simpa [dupTriple] using hdup
  intro a ha b hb
  rw [List.mem_singleton] at hb
  subst hb
  intro hcon
  exact hx a ha hcon.1 hcon.2.1 hcon.2.2

/-- Pushing a file that matches no current entry on name and size keeps
the no-identical-pair invariant. -/
theorem noDupPair_push (cur : List JsFile) (f : JsFile)
    (h : NoDupPair cur) (hdup : dupPair cur f = false) :
    NoDupPair (cur ++ [f]) := by
  rw [NoDupPair, List.pairwise_append]
  refine ⟨h, List.pairwise_singleton _ _, ?_⟩
  have hx : ∀ x ∈ cur, x.name = f.name → ¬x.size = f.size := by
    simpa [dupPair] using hdup
  intro a ha b hb
  rw [List.mem_singleton] at hb
  subst hb
  intro hcon
  exact hx a ha hcon.1 hcon.2

/-- `addFiles` preserves the no-identical-triple invariant. -/
theorem addFiles_noDupTriple (inc : List JsFile) :
    ∀ cur, NoDupTriple cur → NoDupTriple (addFiles cur inc) := by
  induction inc with
  | nil => intro cur h; simpa [addFiles] using h
  | cons f rest ih =>
    intro cur h
    by_cases hext : (extOf f.name == "ppt" || extOf f.name == "pptx") = true
    · by_cases hdup : dupTriple cur f = true
      · rw [addFiles, hext, hdup]
        simpa using ih cur h
      · have hdupf : dupTriple cur f = false := Bool.eq_false_iff.mpr hdup
        rw [addFiles, hext, hdupf]
        simpa using ih (cur ++ [f]) (noDupTriple_push cur f h hdupf)
    · have hextf : (extOf f.name == "ppt" || extOf f.name == "pptx") = false :=
        Bool.eq_false_iff.mpr hext
      rw [addFiles, hextf]
      simpa using ih cur h

/-- The second revision append loop preserves the stronger
no-identical-pair invariant. -/
theorem addFilesDrop_noDupPair (inc : List JsFile) :
    ∀ cur, NoDupPair cur → NoDupPair (addFilesDrop cur inc) := by
  induction inc with
  | nil => intro cur h; simpa [addFilesDrop] using h
  | cons f rest ih =>
    intro cur h
    by_cases hdup : dupPair cur f = true
    · rw [addFilesDrop, hdup]
      simpa using ih cur h
    · have hdupf : dupPair cur f = false := Bool.eq_false_iff.mpr hdup
      rw [addFilesDrop, hdupf]
      simpa using ih (cur ++ [f]) (noDupPair_push cur f h hdupf)

/-- No identical name+size pairs implies no identical triples. -/
theorem NoDupPair.triple {xs : List JsFile} (h : NoDupPair xs) :
    NoDupTriple xs :=
  List.Pairwise.imp (fun hab habc => hab ⟨habc.1, habc.2.1⟩) h

/-- C8: starting from a list without identical entries, any sequence of
adds — `addFiles` (file picker and drop of the first revision, keyed on
name+size+lastModified) or the second revision append loop (keyed on
name+size) — never creates two entries identical on name, size and
modification time; a file equal to a current entry on all three keys is
not added by either. -/
theorem fileList_no_identical_entries (cur inc : List JsFile) (f : JsFile)
    (h1 : NoDupTriple cur) (h2 : NoDupPair cur)
    (hf : dupTriple cur f = true) :
    NoDupTriple (addFiles cur inc) ∧
    NoDupTriple (addFilesDrop cur inc) ∧
    addFiles cur [f] = cur ∧
    addFilesDrop cur [f] = cur := by
  refine ⟨addFiles_noDupTriple inc cur h1,
    (addFilesDrop_noDupPair inc cur h2).triple, ?_, ?_⟩
  · by_cases hext : (extOf f.name == "ppt" || extOf f.name == "pptx") = true
    · rw [addFiles, hext, hf]; rfl
    · rw [addFiles, Bool.eq_false_iff.mpr hext]; rfl
  · rw [addFilesDrop, dupTriple_imp_dupPair cur f hf]; rfl

/-- C8 witness: re-adding the same concrete file leaves the concrete list
unchanged and duplicate-free. -/
theorem fileList_no_identical_entries_witness :
    NoDupTriple (addFiles [⟨"a.pptx", 3, 5⟩]
      [⟨"a.pptx", 3, 5⟩, ⟨"b.ppt", 1, 2⟩]) ∧
    NoDupTriple (addFilesDrop [⟨"a.pptx", 3, 5⟩]
      [⟨"a.pptx", 3, 5⟩, ⟨"b.ppt", 1, 2⟩]) ∧
    addFiles [⟨"a.pptx", 3, 5⟩] [⟨"a.pptx", 3, 5⟩] = [⟨"a.pptx", 3, 5⟩] ∧
    addFilesDrop [⟨"a.pptx", 3, 5⟩] [⟨"a.pptx", 3, 5⟩] = [⟨"a.pptx", 3, 5⟩] :=
  fileList_no_identical_entries [⟨"a.pptx", 3, 5⟩]
    [⟨"a.pptx", 3, 5⟩, ⟨"b.ppt", 1, 2⟩] ⟨"a.pptx", 3, 5⟩
    (by simp [NoDupTriple]) (by simp [NoDupPair]) (by decide)

/-! ## C10: out-of-range removal is a no-op -/

/-- C10: calling `removeFileAt` with a negative index or one at or past
the list length returns before touching anything: the file list, the
hidden input and the rendered names are all unchanged. -/
theorem removeFileAt_out_of_range (st : ClientState) (index : Int)
    (h : index < 0 ∨ (st.currentFiles.length : Int) ≤ index) :
    removeFileAt st index = st := by
  rw [removeFileAt, if_pos h]

/-- C10 witness: a negative index and an index equal to the length leave
a concrete state untouched. -/
theorem removeFileAt_out_of_range_witness :
    removeFileAt ⟨[⟨"a.pptx", 3, 5⟩], [⟨"a.pptx", 3, 5⟩], ["a.pptx"]⟩ (-1) =
      ⟨[⟨"a.pptx", 3, 5⟩], [⟨"a.pptx", 3, 5⟩], ["a.pptx"]⟩ ∧
    removeFileAt ⟨[⟨"a.pptx", 3, 5⟩], [⟨"a.pptx", 3, 5⟩], ["a.pptx"]⟩ 1 =
      ⟨[⟨"a.pptx", 3, 5⟩], [⟨"a.pptx", 3, 5⟩], ["a.pptx"]⟩ :=
  ⟨removeFileAt_out_of_range _ (-1) (Or.inl (by decide)),
   removeFileAt_out_of_range _ 1 (Or.inr (by decide))⟩

end Ppt2Pdf
